import Mathlib

/-!
# Verification of the NeuroLink demo server's provider-selection core

A shallow embedding of the provider-selection-and-fallback orchestration
logic of `src/server.js`: configuration probing (`isProviderConfigured`,
`testProviderAvailability`), candidate-list construction and the sequential
fallback loop (`generateWithProvider`), error classification, and the
usage-statistics bookkeeping (`usageStats`, `updateUsageStats`, the
`/api/generate` handler).

The external world (the provider SDK, the network, the process environment)
is modelled by explicit oracles:

* `Env` — the process environment (`process.env`), a partial map from
  variable names to string values; JavaScript truthiness of an environment
  value (`!!process.env[v]`) is `envTruthy`.
* `AttemptOutcome` — what one `createAIProvider` + `generate` round-trip
  against a named provider does: throw an error message, or return a
  payload (possibly `null`, possibly with empty/missing `text`).

Functions that perform network traffic additionally return the list of
providers they actually contacted, so that "no network call is performed"
is a provable statement about the trace.
-/

namespace NeuroLink

/-! ## JavaScript string primitives -/

/-- Helper for `jsIncludes`: is `pat` an infix of the character list? -/
def infixOfAux (pat : List Char) : List Char → Bool
  | [] => pat.isEmpty
  | c :: rest => pat.isPrefixOf (c :: rest) || infixOfAux pat rest

/-- JavaScript `hay.includes(pat)`: case-sensitive substring containment. -/
def jsIncludes (hay pat : String) : Bool :=
  infixOfAux pat.toList hay.toList

/-- Uppercase one ASCII character (JavaScript `toUpperCase` on the
character sets the repository actually uses). -/
def upperChar (c : Char) : Char :=
  if 'a' ≤ c ∧ c ≤ 'z' then Char.ofNat (c.toNat - 32) else c

/-- JavaScript `s.toUpperCase()` restricted to ASCII. -/
def jsToUpper (s : String) : String :=
  String.mk (s.toList.map upperChar)

/-- JavaScript `s.replace("-", "_")`: replaces only the FIRST occurrence. -/
def replaceFirstDash : List Char → List Char
  | [] => []
  | c :: cs => if c = '-' then '_' :: cs else c :: replaceFirstDash cs

/-! ## Configuration constants (`src/server.js` lines 39–86) -/

/-- `ALL_PROVIDERS`: the fixed provider-priority list, single source of
truth for ordering. -/
def ALL_PROVIDERS : List String :=
  ["google-ai", "anthropic", "openai", "mistral", "vertex",
   "azure", "huggingface", "bedrock", "ollama"]

/-- `DEFAULT_MODELS`: default model mapping for each provider
(`none` models an absent key). -/
def DEFAULT_MODELS (p : String) : Option String :=
  if p = "openai" then some "gpt-4o"
  else if p = "bedrock" then
    some "arn:aws:bedrock:us-east-2:225681119357:inference-profile/us.anthropic.claude-3-7-sonnet-20250219-v1:0"
  else if p = "vertex" then some "gemini-2.5-pro"
  else if p = "google-ai" then some "gemini-2.5-pro"
  else if p = "anthropic" then some "claude-3-5-sonnet-20241022"
  else if p = "azure" then some "gpt-4o"
  else if p = "huggingface" then some "microsoft/DialoGPT-medium"
  else if p = "ollama" then some "llama3.2:latest"
  else if p = "mistral" then some "mistral-small"
  else none

/-- `PROVIDER_ENV_VARS`: required environment variables per provider
(`none` models an absent key, i.e. an unknown provider name). -/
def PROVIDER_ENV_VARS (p : String) : Option (List String) :=
  if p = "openai" then some ["OPENAI_API_KEY"]
  else if p = "bedrock" then some ["AWS_ACCESS_KEY_ID", "AWS_SECRET_ACCESS_KEY"]
  else if p = "vertex" then
    some ["GOOGLE_VERTEX_PROJECT", "GOOGLE_APPLICATION_CREDENTIALS",
          "GOOGLE_AUTH_CLIENT_EMAIL"]
  else if p = "google-ai" then some ["GOOGLE_AI_API_KEY"]
  else if p = "anthropic" then some ["ANTHROPIC_API_KEY"]
  else if p = "azure" then some ["AZURE_OPENAI_API_KEY", "AZURE_OPENAI_ENDPOINT"]
  else if p = "huggingface" then some ["HUGGINGFACE_API_KEY"]
  else if p = "ollama" then some []
  else if p = "mistral" then some ["MISTRAL_API_KEY"]
  else none

/-! ## The process environment -/

/-- `process.env`: a partial map from variable names to values. -/
def Env : Type := String → Option String

/-- JavaScript truthiness of `process.env[v]`: set and non-empty
(`!!process.env[v]`; the empty string is falsy). -/
def envTruthy (env : Env) (v : String) : Bool :=
  match env v with
  | none => false
  | some s => decide (s ≠ "")

/-- `process.env.ENABLE_FALLBACK !== "false"` (line 330): fallback is
enabled unless the toggle is the exact string `"false"`. -/
def fallbackEnabled (env : Env) : Bool :=
  decide (env "ENABLE_FALLBACK" ≠ some "false")

/-- The model-override key `provider.toUpperCase().replace("-", "_") + "_MODEL"`
(line 127). -/
def modelEnvKey (p : String) : String :=
  String.mk (replaceFirstDash (jsToUpper p).toList) ++ "_MODEL"

/-- `getModelForProvider` (lines 126–131):
`process.env[envVar] || DEFAULT_MODELS[provider] || DEFAULT_MODELS.openai`. -/
def getModelForProvider (env : Env) (p : String) : String :=
  let fallback :=
    match DEFAULT_MODELS p with
    | some m => if m ≠ "" then m else "gpt-4o"
    | none => "gpt-4o"
  match env (modelEnvKey p) with
  | some s => if s ≠ "" then s else fallback
  | none => fallback

/-- `isProviderConfigured` (lines 138–152): `ollama` is always configured;
`vertex` needs at least one of its variables; every other provider needs
all of them (an unknown provider's list defaults to `[]`). -/
def isProviderConfigured (env : Env) (p : String) : Bool :=
  if p = "ollama" then true
  else
    let requiredVars := (PROVIDER_ENV_VARS p).getD []
    if p = "vertex" then requiredVars.any (envTruthy env)
    else requiredVars.all (envTruthy env)

/-! ## Error classification (`testProviderAvailability`, lines 274–303)

The `catch` block of the probe inspects the raw error message with
JavaScript's case-sensitive `String.includes`, in a fixed order:
authentication patterns first, then not-found, then rate-limit, then
connection failure, else unknown. -/

/-- The coarse error kinds distinguished by the probe's `catch` block. -/
inductive ErrorKind where
  | authentication
  | notFound
  | rateLimited
  | connectionFailure
  | unknown
  deriving DecidableEq, Repr

/-- The branch structure of lines 281–302: case-sensitive `includes`
checks evaluated in order, first match wins. -/
def classifyError (msg : String) : ErrorKind :=
  if jsIncludes msg "401" || jsIncludes msg "Unauthorized" ||
     jsIncludes msg "Invalid API" || jsIncludes msg "Authentication" ||
     jsIncludes msg "API key" || jsIncludes msg "not authorized" then
    .authentication
  else if jsIncludes msg "404" || jsIncludes msg "not found" then
    .notFound
  else if jsIncludes msg "429" || jsIncludes msg "rate limit" then
    .rateLimited
  else if jsIncludes msg "timeout" || jsIncludes msg "ECONNREFUSED" then
    .connectionFailure
  else
    .unknown

/-- The user-facing `result.error` string chosen by each classification
branch; the unknown kind passes the raw message through (line 301). -/
def probeErrorMessage (msg : String) : String :=
  match classifyError msg with
  | .authentication => "Invalid API key or authentication failed"
  | .notFound => "Model or endpoint not found"
  | .rateLimited => "Rate limit exceeded"
  | .connectionFailure => "Connection failed - service may be down"
  | .unknown => msg

/-- Modelled from the spec: the claimed classifier — *case-insensitive*
substring matching with patterns 401/unauthorized/invalid api/
authentication/api key/not authorized, then 404/not found, then
429/rate limit, then timeout/connection refused, first match wins.
Defined for comparison with the source's `classifyError`. -/
def lowerChar (c : Char) : Char :=
  if 'A' ≤ c ∧ c ≤ 'Z' then Char.ofNat (c.toNat + 32) else c

/-- Case-insensitive lowering of a whole string (ASCII). -/
def lowerString (s : String) : String :=
  String.mk (s.toList.map lowerChar)

/-- Modelled from the spec: classification as the spec describes it —
case-insensitive substring matching in the stated priority order. -/
def classifySpec (msg : String) : ErrorKind :=
  let m := lowerString msg
  if jsIncludes m "401" || jsIncludes m "unauthorized" ||
     jsIncludes m "invalid api" || jsIncludes m "authentication" ||
     jsIncludes m "api key" || jsIncludes m "not authorized" then
    .authentication
  else if jsIncludes m "404" || jsIncludes m "not found" then
    .notFound
  else if jsIncludes m "429" || jsIncludes m "rate limit" then
    .rateLimited
  else if jsIncludes m "timeout" || jsIncludes m "connection refused" then
    .connectionFailure
  else
    .unknown

/-- The ordered pattern table of the source's classifier: each row is the
list of case-sensitive patterns checked by one branch, in branch order. -/
def patternTable : List (List String × ErrorKind) :=
  [(["401", "Unauthorized", "Invalid API", "Authentication", "API key",
     "not authorized"], .authentication),
   (["404", "not found"], .notFound),
   (["429", "rate limit"], .rateLimited),
   (["timeout", "ECONNREFUSED"], .connectionFailure)]

/-- First-match-wins evaluation of the ordered pattern table. -/
def firstMatchClassify (msg : String) : ErrorKind :=
  match patternTable.find? (fun pr => pr.1.any (fun pat => jsIncludes msg pat)) with
  | some pr => pr.2
  | none => .unknown

/-! ## The external provider world -/

/-- The payload an external `provider.generate(...)` call resolves with:
`text` (`none` models a `null`/missing field), `model`, and a usage object
carrying a token total (`none` models absent usage). -/
structure GenPayload where
  text : Option String
  model : Option String
  usage : Option Nat
  deriving DecidableEq, Repr

/-- One `createAIProvider` + `generate` round-trip against a provider:
it either throws an error with a message, or resolves with a payload
(`returned none` models resolving with `null`/`undefined`). -/
inductive AttemptOutcome where
  | threw (msg : String)
  | returned (r : Option GenPayload)
  deriving DecidableEq, Repr

/-- The external world seen by the probe: whether the local Ollama daemon
answers the liveness check, and what one generation attempt against each
named provider does. -/
structure ProbeWorld where
  ollamaRunning : Bool
  attempt : String → AttemptOutcome

/-! ## The Prober (`testProviderAvailability`, lines 227–306) -/

/-- The per-provider status record built by the probe. -/
structure ProviderStatus where
  available : Bool
  configured : Bool
  authenticated : Bool
  model : String
  error : Option String
  deriving DecidableEq, Repr

/-- The fast-fail error text of line 254:
`Missing required environment variables: ` followed by
`PROVIDER_ENV_VARS[providerName]?.join(", ") || "Unknown"`
(an absent key, or a join that is the empty string, yields `Unknown`). -/
def missingEnvMessage (p : String) : String :=
  let joined :=
    match PROVIDER_ENV_VARS p with
    | some l => let s := String.intercalate ", " l
                if s ≠ "" then s else "Unknown"
    | none => "Unknown"
  "Missing required environment variables: " ++ joined

/-- `testProviderAvailability` (lines 227–306). Returns the status record
together with the list of providers actually contacted over the network
(the Ollama liveness fetch counts as contacting `"ollama"`). -/
def testProviderAvailability (world : ProbeWorld) (env : Env)
    (name : String) : ProviderStatus × List String :=
  if name = "ollama" then
    let isRunning := world.ollamaRunning
    ({ available := isRunning, configured := isRunning,
       authenticated := isRunning,
       model := getModelForProvider env name,
       error := if isRunning then none else
         some "Ollama is not running. Please start Ollama with: ollama serve" },
     ["ollama"])
  else if isProviderConfigured env name = false then
    ({ available := false, configured := false, authenticated := false,
       model := getModelForProvider env name,
       error := some (missingEnvMessage name) }, [])
  else
    match world.attempt name with
    | .returned _ =>
        ({ available := true, configured := true, authenticated := true,
           model := getModelForProvider env name, error := none }, [name])
    | .threw msg =>
        ({ available := false, configured := true,
           authenticated := decide (classifyError msg = .rateLimited),
           model := getModelForProvider env name,
           error := some (probeErrorMessage msg) }, [name])

/-! ## The Fallback Sequencer (`generateWithProvider`, lines 315–404) -/

/-- Candidate-list construction (lines 319–339): `"auto"` filters the
priority list by the fast configuration check; an explicit provider is
tried first, followed — unless `ENABLE_FALLBACK` is `"false"` — by the
remaining configured providers in priority order. -/
def providersToTry (env : Env) (providerName : String) : List String :=
  if providerName = "auto" then
    ALL_PROVIDERS.filter (fun p => isProviderConfigured env p)
  else if fallbackEnabled env then
    providerName ::
      ALL_PROVIDERS.filter
        (fun p => p ≠ providerName && isProviderConfigured env p)
  else
    [providerName]

/-- Is the payload's `text` field truthy? (`!result.text` fails the
attempt when `text` is missing, `null`, or the empty string, line 365.) -/
def payloadTextOk (pl : GenPayload) : Bool :=
  match pl.text with
  | some t => decide (t ≠ "")
  | none => false

/-- Evaluate one attempt inside the loop's `try` block: a thrown error
keeps its message; a `null` result or an empty/missing `text` field
becomes the thrown `"Provider returned null or invalid response"`
(lines 365–367); otherwise the payload is the successful result. -/
def attemptEval : AttemptOutcome → Except String GenPayload
  | .threw m => .error m
  | .returned none => .error "Provider returned null or invalid response"
  | .returned (some pl) =>
      if payloadTextOk pl then .ok pl
      else .error "Provider returned null or invalid response"

/-- The message of a failed attempt (the `errorMsg` the loop records). -/
def attemptErrMsg (o : AttemptOutcome) : String :=
  match attemptEval o with
  | .error m => m
  | .ok _ => ""

/-- The success object returned at lines 376–384 (wall-clock
`responseTime` is not modelled); `i` is the zero-based loop index. -/
structure GenResult where
  content : String
  provider : String
  model : String
  usage : Option Nat
  attemptedProviders : Nat
  fallbackUsed : Bool
  deriving DecidableEq, Repr

/-- Build the success record for candidate `p` at loop index `i`
(`model := result.model || getModelForProvider(currentProvider)`). -/
def mkSuccess (env : Env) (p : String) (pl : GenPayload) (i : Nat) : GenResult :=
  { content := pl.text.getD "",
    provider := p,
    model :=
      match pl.model with
      | some m => if m ≠ "" then m else getModelForProvider env p
      | none => getModelForProvider env p,
    usage := pl.usage,
    attemptedProviders := i + 1,
    fallbackUsed := decide (i > 0) }

/-- How one call to `generateWithProvider` ends: a success object, a
thrown aggregate error, or — when the loop body never runs — the
JavaScript `undefined` falling out of the function (`noResult`). -/
inductive GenOutcome where
  | success (r : GenResult)
  | failure (msg : String)
  | noResult
  deriving DecidableEq, Repr

/-- Is the outcome a thrown error? -/
def GenOutcome.isFailure : GenOutcome → Bool
  | .failure _ => true
  | _ => false

/-- The `for` loop of lines 344–403 over the remaining candidates, where
`i` is the current zero-based index and `total` is
`providersToTry.length`.  On a failed attempt at the last index
(`i === providersToTry.length - 1`) the loop throws
`Failed after ${total} attempts. Last error: ${errorMsg}`; otherwise it
continues with the next candidate.  The second component is the trace of
providers contacted (one `createAIProvider`+`generate` per iteration). -/
def runCandidates (env : Env) (oracle : String → AttemptOutcome)
    (total : Nat) : List String → Nat → GenOutcome × List String
  | [], _ => (.noResult, [])
  | p :: rest, i =>
      match attemptEval (oracle p) with
      | .ok pl => (.success (mkSuccess env p pl i), [p])
      | .error msg =>
          if i = total - 1 then
            (.failure ("Failed after " ++ toString total ++
                       " attempts. Last error: " ++ msg), [p])
          else
            let next := runCandidates env oracle total rest (i + 1)
            (next.1, p :: next.2)

/-- `generateWithProvider` (lines 315–404): build the candidate list,
then walk it. -/
def generateWithProvider (env : Env) (oracle : String → AttemptOutcome)
    (providerName : String) : GenOutcome × List String :=
  let cands := providersToTry env providerName
  runCandidates env oracle cands.length cands 0

/-! ## Usage statistics and the `/api/generate` handler -/

/-- The process-wide `usageStats` object (lines 98–103); the `providers`
map is declared but never written by the server. -/
structure UsageStats where
  requests : Nat
  providers : List (String × Nat)
  errors : Nat
  totalTokens : Nat
  deriving DecidableEq, Repr

/-- `updateUsageStats` (lines 199–203): add the token total when the
usage object is present and its `totalTokens` is truthy (non-zero). -/
def updateUsageStats (st : UsageStats) (usage : Option Nat) : UsageStats :=
  match usage with
  | some t => if t ≠ 0 then { st with totalTokens := st.totalTokens + t } else st
  | none => st

/-- The `/api/generate` flow as it touches `usageStats`: the `logRequest`
middleware increments `requests` once per inbound request (line 111); a
missing prompt returns 400 with no further bookkeeping; a successful
generation folds the successful attempt's usage in via
`updateUsageStats` (line 370); a thrown error — including the `TypeError`
raised when the sequencer falls through with `undefined` — is caught at
line 605 and increments `errors`. -/
def handleGenerate (env : Env) (oracle : String → AttemptOutcome)
    (st0 : UsageStats) (providerName : String) (hasPrompt : Bool) : UsageStats :=
  let st := { st0 with requests := st0.requests + 1 }
  if !hasPrompt then st
  else
    match (generateWithProvider env oracle providerName).1 with
    | .success r => updateUsageStats st r.usage
    | .failure _ => { st with errors := st.errors + 1 }
    | .noResult => { st with errors := st.errors + 1 }

/-! ## Concrete instances used by witnesses and counterexamples -/

/-- An environment where only `GOOGLE_AI_API_KEY` is set. -/
def cexEnv : Env := fun k => if k = "GOOGLE_AI_API_KEY" then some "key" else none

/-- An oracle under which every provider attempt throws: `google-ai`
throws `"aaa"`, everything else throws `"bbb"`. -/
def cexOracle : String → AttemptOutcome := fun p =>
  .threw (if p = "google-ai" then "aaa" else "bbb")

/-- An empty environment: no variable is set. -/
def emptyEnv : Env := fun _ => none

/-- An oracle where `google-ai` throws and every other provider resolves
with the non-empty text `"hello"` and a usage total of 7 tokens. -/
def succOracle : String → AttemptOutcome := fun p =>
  if p = "google-ai" then .threw "x"
  else .returned (some ⟨some "hello", none, some 7⟩)

/-! ## C10 -/

/-- C10: in every environment the configuration check for the local
provider `ollama` returns `true`, so the `"auto"`-mode candidate list
always contains `ollama` and is never empty. -/
theorem ollama_always_configured (env : Env) :
    isProviderConfigured env "ollama" = true ∧
    "ollama" ∈ providersToTry env "auto" ∧
    providersToTry env "auto" ≠ [] := by
  have hmem : "ollama" ∈ providersToTry env "auto" := by
    unfold providersToTry
    rw [if_pos rfl]
    exact List.mem_filter.mpr ⟨by decide, rfl⟩
  exact ⟨rfl, hmem, List.ne_nil_of_mem hmem⟩

/-- Witness for C10: concretely, in the empty environment the `"auto"`
candidate list contains `ollama`. -/
theorem ollama_always_configured_witness :
    isProviderConfigured emptyEnv "ollama" = true ∧
    "ollama" ∈ providersToTry emptyEnv "auto" ∧
    providersToTry emptyEnv "auto" ≠ [] :=
  ollama_always_configured emptyEnv

/-! ## C2 -/

/-- C2: candidate-list construction is deterministic.  In `"auto"` mode
the candidates are the fixed priority list filtered to configured
providers with order preserved (a sublist of the priority list whose
members are exactly the configured priority-list providers); with an
explicit provider, the candidates are the requested provider followed by
the remaining configured providers in priority order, unless
`ENABLE_FALLBACK` is `"false"`, in which case they are the requested
provider alone. -/
theorem candidate_construction (env : Env) (p : String) (hp : p ≠ "auto") :
    providersToTry env "auto" =
      ["google-ai", "anthropic", "openai", "mistral", "vertex", "azure",
       "huggingface", "bedrock", "ollama"].filter
        (fun q => isProviderConfigured env q) ∧
    (∀ q, q ∈ providersToTry env "auto" ↔
        q ∈ ALL_PROVIDERS ∧ isProviderConfigured env q = true) ∧
    (providersToTry env "auto").Sublist ALL_PROVIDERS ∧
    (fallbackEnabled env = true →
      providersToTry env p =
        p :: ALL_PROVIDERS.filter
          (fun q => q ≠ p && isProviderConfigured env q)) ∧
    (fallbackEnabled env = false → providersToTry env p = [p]) := by
  refine ⟨rfl, ?_, ?_, ?_, ?_⟩
  · intro q
    unfold providersToTry
    rw [if_pos rfl]
    simp [List.mem_filter]
  · unfold providersToTry
    rw [if_pos rfl]
    exact List.filter_sublist _
  · intro hf
    unfold providersToTry
    rw [if_neg hp, if_pos hf]
  · intro hf
    unfold providersToTry
    rw [if_neg hp, if_neg (by rw [hf]; exact Bool.false_ne_true)]

/-- Witness for C2: with nothing configured and fallback enabled by
default, requesting `anthropic` yields `anthropic` followed by the
remaining configured providers (here only `ollama`). -/
theorem candidate_construction_witness :
    providersToTry emptyEnv "anthropic" =
      "anthropic" :: ALL_PROVIDERS.filter
        (fun q => q ≠ "anthropic" && isProviderConfigured emptyEnv q) :=
  (candidate_construction emptyEnv "anthropic" (by decide)).2.2.2.1 rfl

/-! ## C7 -/

/-- C7: for every non-local provider whose required environment variables
are not set (all-required in general, at-least-one for `vertex`, both as
computed by `isProviderConfigured`), the probe returns immediately with
`configured = available = authenticated = false` and the
`Missing required environment variables: <list>` error, contacting no
provider over the network. -/
theorem probe_fast_fail (world : ProbeWorld) (env : Env) (name : String)
    (h : isProviderConfigured env name = false) :
    testProviderAvailability world env name =
      ({ available := false, configured := false, authenticated := false,
         model := getModelForProvider env name,
         error := some (missingEnvMessage name) }, []) := by
  have hn : name ≠ "ollama" := by
    intro e
    rw [e] at h
    simp [isProviderConfigured] at h
  unfold testProviderAvailability
  rw [if_neg hn, if_pos h]

/-- Witness for C7: with nothing configured, probing `openai` fast-fails
with the missing-variable message and performs no network call. -/
theorem probe_fast_fail_witness :
    testProviderAvailability ⟨true, fun _ => .threw ""⟩ emptyEnv "openai" =
      ({ available := false, configured := false, authenticated := false,
         model := "gpt-4o",
         error := some "Missing required environment variables: OPENAI_API_KEY" },
       []) := by
  rw [probe_fast_fail ⟨true, fun _ => .threw ""⟩ emptyEnv "openai" (by decide)]
  decide

/-! ## C5 -/

/-- Counterexample to C5: run on an empty candidate list, the sequencer
loop produces no error at all — it falls through with `undefined`
(`noResult`) and an empty call trace — rather than failing with a
"no providers configured" error. -/
theorem empty_candidates_cex :
    runCandidates emptyEnv cexOracle 0 [] 0 = (GenOutcome.noResult, []) ∧
    GenOutcome.noResult.isFailure = false :=
  ⟨rfl, rfl⟩

/-- C5 (amended): `generateWithProvider` never constructs an empty
candidate list (explicit mode always includes the requested provider and
`"auto"` mode always includes `ollama`); were the loop run on an empty
list it would return `undefined` without throwing any error and without
any network call. -/
theorem empty_candidates_amended :
    (∀ (env : Env) (req : String), providersToTry env req ≠ []) ∧
    (∀ (env : Env) (oracle : String → AttemptOutcome) (total i : Nat),
      runCandidates env oracle total [] i = (.noResult, [])) := by
  constructor
  · intro env req
    by_cases h : req = "auto"
    · subst h
      have hmem : "ollama" ∈ providersToTry env "auto" := by
        unfold providersToTry
        rw [if_pos rfl]
        exact List.mem_filter.mpr ⟨by decide, rfl⟩
      exact List.ne_nil_of_mem hmem
    · unfold providersToTry
      rw [if_neg h]
      by_cases hf : fallbackEnabled env = true
      · rw [if_pos hf]; exact List.cons_ne_nil _ _
      · rw [if_neg hf]; exact List.cons_ne_nil _ _
  · intro env oracle total i
    rfl

/-- Witness for C5 (amended): concretely, the candidate list for an
explicit `mistral` request in the empty environment is non-empty, and a
run over the empty list yields `undefined` with an empty call trace. -/
theorem empty_candidates_amended_witness :
    providersToTry emptyEnv "mistral" ≠ [] ∧
    runCandidates emptyEnv cexOracle 3 [] 1 = (.noResult, []) :=
  ⟨empty_candidates_amended.1 emptyEnv "mistral",
   empty_candidates_amended.2 emptyEnv cexOracle 3 1⟩

/-! ## C1 -/

/-- When every candidate's attempt fails, the loop throws
`Failed after ${total} attempts. Last error: ${errorMsg}` — where
`errorMsg` is the LAST candidate's error message only — after contacting
every candidate. -/
lemma runCandidates_allFail (env : Env) (oracle : String → AttemptOutcome) :
    ∀ (l : List String) (i total : Nat), total = i + l.length →
    ∀ (hne : l ≠ []),
    (∀ p ∈ l, ∃ m, attemptEval (oracle p) = .error m) →
    runCandidates env oracle total l i =
      (.failure ("Failed after " ++ toString total ++
                 " attempts. Last error: " ++
                 attemptErrMsg (oracle (l.getLast hne))), l) := by
  intro l
  induction l with
  | nil => intro i total _ hne; exact absurd rfl hne
  | cons p rest ih =>
    intro i total htot hne hfail
    obtain ⟨m, hm⟩ := hfail p (List.mem_cons_self p rest)
    simp only [runCandidates, hm]
    cases rest with
    | nil =>
      simp only [List.length_cons, List.length_nil] at htot
      have hi : i = total - 1 := by omega
      rw [if_pos hi]
      have hmsg : attemptErrMsg (oracle ((p :: []).getLast hne)) = m := by
        show attemptErrMsg (oracle p) = m
        unfold attemptErrMsg
        rw [hm]
      rw [hmsg]
    | cons q rest2 =>
      simp only [List.length_cons] at htot
      have hi : ¬ i = total - 1 := by omega
      rw [if_neg hi]
      have hrec := ih (i + 1) total
        (by simp only [List.length_cons]; omega)
        (List.cons_ne_nil q rest2)
        (fun r hr => hfail r (List.mem_cons_of_mem p hr))
      rw [hrec]
      have hlast : (q :: rest2).getLast (List.cons_ne_nil q rest2) =
          (p :: q :: rest2).getLast hne := (List.getLast_cons _).symm
      rw [hlast]

/-- Counterexample to C1: with candidates `[google-ai, ollama]` under
`cexEnv` and every attempt failing (`google-ai` with `"aaa"`, `ollama`
with `"bbb"`), the thrown aggregate message is
`Failed after 2 attempts. Last error: bbb`: it states the count but
mentions neither the provider name `google-ai` nor its message `aaa`, so
it does not concatenate the `provider: message` pair of every attempted
candidate. -/
theorem aggregate_error_cex :
    (generateWithProvider cexEnv cexOracle "auto").1 =
      .failure "Failed after 2 attempts. Last error: bbb" ∧
    jsIncludes "Failed after 2 attempts. Last error: bbb" "google-ai" = false ∧
    jsIncludes "Failed after 2 attempts. Last error: bbb" "aaa" = false := by
  decide

/-- C1 (amended): if every candidate of a non-empty candidate list fails,
`generateWithProvider` throws a single error whose message states the
count of attempts made and the LAST candidate's error message only
(`Failed after N attempts. Last error: <last message>`); all N candidates
are attempted, but the per-candidate `provider: message` pairs are only
logged, not surfaced in the thrown message. -/
theorem aggregate_error (env : Env) (oracle : String → AttemptOutcome)
    (req : String) (hne : providersToTry env req ≠ [])
    (hfail : ∀ p ∈ providersToTry env req,
      ∃ m, attemptEval (oracle p) = .error m) :
    generateWithProvider env oracle req =
      (.failure ("Failed after " ++ toString (providersToTry env req).length ++
                 " attempts. Last error: " ++
                 attemptErrMsg (oracle ((providersToTry env req).getLast hne))),
       providersToTry env req) := by
  unfold generateWithProvider
  exact runCandidates_allFail env oracle (providersToTry env req) 0
    (providersToTry env req).length (by omega) hne hfail

/-- Witness for C1 (amended): the concrete all-fail run of
`aggregate_error_cex`, obtained by applying `aggregate_error`. -/
theorem aggregate_error_witness :
    generateWithProvider cexEnv cexOracle "auto" =
      (.failure "Failed after 2 attempts. Last error: bbb",
       ["google-ai", "ollama"]) := by
  have hcands : providersToTry cexEnv "auto" = ["google-ai", "ollama"] := by
    decide
  have hfail : ∀ p ∈ providersToTry cexEnv "auto",
      ∃ m, attemptEval (cexOracle p) = .error m := by
    intro p hp
    rw [hcands] at hp
    simp only [List.mem_cons, List.not_mem_nil, or_false] at hp
    rcases hp with rfl | rfl
    · exact ⟨"aaa", rfl⟩
    · exact ⟨"bbb", rfl⟩
  have h := aggregate_error cexEnv cexOracle "auto" (by decide) hfail
  rw [h]
  decide

/-! ## C3 -/

/-- If the attempts at the first `k` candidates fail and the attempt at
index `k` succeeds, the loop stops there: it returns the success record
built at loop index `i + k`, and the call trace is exactly the first
`k + 1` candidates. -/
lemma runCandidates_firstSuccess (env : Env) (oracle : String → AttemptOutcome) :
    ∀ (l : List String) (k i total : Nat) (hk : k < l.length)
      (pl : GenPayload),
    total = i + l.length →
    (∀ p ∈ l.take k, ∃ m, attemptEval (oracle p) = .error m) →
    attemptEval (oracle (l.get ⟨k, hk⟩)) = .ok pl →
    runCandidates env oracle total l i =
      (.success (mkSuccess env (l.get ⟨k, hk⟩) pl (i + k)), l.take (k + 1)) := by
  intro l
  induction l with
  | nil => intro k i total hk; exact absurd hk (by simp)
  | cons p rest ih =>
    intro k i total hk pl htot hfail hok
    cases k with
    | zero =>
      simp only [List.get] at hok
      simp only [runCandidates, hok, List.get, List.take, Nat.add_zero]
    | succ k2 =>
      obtain ⟨m, hm⟩ := hfail p (by simp [List.take])
      simp only [runCandidates, hm]
      simp only [List.length_cons] at htot hk
      have hi : ¬ i = total - 1 := by omega
      rw [if_neg hi]
      have hrec := ih k2 (i + 1) total (Nat.lt_of_succ_lt_succ hk) pl
        (by omega)
        (fun r hr => hfail r (by simp only [List.take, List.mem_cons]; right; exact hr))
        hok
      rw [hrec, show i + 1 + k2 = i + (k2 + 1) from by omega]
      rfl

/-- C3: for every candidate list in which the candidate at position
`k + 1` (one-based `K = k + 1`) is the first whose attempt succeeds with
a non-empty text payload, no later candidate is contacted (the call trace
is exactly the first `k + 1` candidates), the result reports
`attemptedProviders = k + 1`, and `fallbackUsed` is true exactly when
`k + 1 > 1`. -/
theorem first_success_wins (env : Env) (oracle : String → AttemptOutcome)
    (req : String) (k : Nat) (pl : GenPayload)
    (hk : k < (providersToTry env req).length)
    (hfail : ∀ p ∈ (providersToTry env req).take k,
      ∃ m, attemptEval (oracle p) = .error m)
    (hok : attemptEval (oracle ((providersToTry env req).get ⟨k, hk⟩)) = .ok pl) :
    generateWithProvider env oracle req =
      (.success (mkSuccess env ((providersToTry env req).get ⟨k, hk⟩) pl k),
       (providersToTry env req).take (k + 1)) ∧
    (mkSuccess env ((providersToTry env req).get ⟨k, hk⟩) pl k).attemptedProviders
      = k + 1 ∧
    (mkSuccess env ((providersToTry env req).get ⟨k, hk⟩) pl k).fallbackUsed
      = decide (k + 1 > 1) := by
  refine ⟨?_, rfl, ?_⟩
  · unfold generateWithProvider
    have h := runCandidates_firstSuccess env oracle (providersToTry env req)
      k 0 (providersToTry env req).length hk pl (by omega) hfail hok
    rw [h]
    simp only [Nat.zero_add]
  · unfold mkSuccess
    simp only
    rw [decide_eq_decide]
    omega

/-- Witness for C3: under `cexEnv` the candidates are
`[google-ai, ollama]`; `google-ai` throws and `ollama` succeeds with text
`"hello"` and 7 usage tokens, so the second candidate wins:
`attemptedProviders = 2`, `fallbackUsed = true`, and only the two first
candidates are contacted. -/
theorem first_success_wins_witness :
    generateWithProvider cexEnv succOracle "auto" =
      (.success { content := "hello", provider := "ollama",
                  model := "llama3.2:latest", usage := some 7,
                  attemptedProviders := 2, fallbackUsed := true },
       ["google-ai", "ollama"]) := by
  have hfail : ∀ p ∈ (providersToTry cexEnv "auto").take 1,
      ∃ m, attemptEval (succOracle p) = .error m := by
    intro p hp
    rw [show (providersToTry cexEnv "auto").take 1 = ["google-ai"] from by decide] at hp
    simp only [List.mem_cons, List.not_mem_nil, or_false] at hp
    subst hp
    exact ⟨"x", rfl⟩
  have h := (first_success_wins cexEnv succOracle "auto" 1
    ⟨some "hello", none, some 7⟩ (by decide) hfail rfl).1
  rw [h]
  decide

/-! ## C6 -/

/-- The loop's outcome depends on the oracle only through `attemptEval`:
oracles whose attempts evaluate identically produce identical runs. -/
lemma runCandidates_congr (env : Env) (o1 o2 : String → AttemptOutcome)
    (h : ∀ p, attemptEval (o1 p) = attemptEval (o2 p)) :
    ∀ (l : List String) (total i : Nat),
    runCandidates env o1 total l i = runCandidates env o2 total l i := by
  intro l
  induction l with
  | nil => intro total i; rfl
  | cons p rest ih =>
    intro total i
    cases hE : attemptEval (o2 p) with
    | ok pl => simp only [runCandidates, h p, hE]
    | error m =>
      simp only [runCandidates, h p, hE]
      by_cases hi : i = total - 1
      · rw [if_pos hi, if_pos hi]
      · rw [if_neg hi, if_neg hi, ih]

/-- C6: a candidate whose generation call resolves with an empty or
missing `text` field is treated as a failed attempt (the internal
`Provider returned null or invalid response` error), never returned as a
success with empty content, and the whole call behaves exactly as if
that candidate had thrown that error — the sequencer proceeds to the
next candidate. -/
theorem empty_text_is_failure (env : Env) (oracle : String → AttemptOutcome)
    (req p : String) (pl : GenPayload) (h : payloadTextOk pl = false) :
    attemptEval (.returned (some pl)) =
      .error "Provider returned null or invalid response" ∧
    generateWithProvider env
        (Function.update oracle p (.returned (some pl))) req =
      generateWithProvider env
        (Function.update oracle p
          (.threw "Provider returned null or invalid response")) req := by
  have hA : attemptEval (.returned (some pl)) =
      .error "Provider returned null or invalid response" := by
    simp [attemptEval, h]
  refine ⟨hA, ?_⟩
  unfold generateWithProvider
  have hfun : ∀ q,
      attemptEval (Function.update oracle p (.returned (some pl)) q) =
      attemptEval (Function.update oracle p
        (.threw "Provider returned null or invalid response") q) := by
    intro q
    by_cases hq : q = p
    · subst hq
      rw [Function.update_same, Function.update_same, hA]
      rfl
    · rw [Function.update_noteq hq, Function.update_noteq hq]
  exact runCandidates_congr env _ _ hfun _ _ _

/-- Witness for C6: the payload `text = ""` concretely evaluates to the
internal failure, and replacing `ollama`'s empty-text response by the
corresponding thrown error leaves the whole `auto`-mode call unchanged. -/
theorem empty_text_is_failure_witness :
    attemptEval (.returned (some ⟨some "", none, none⟩)) =
      .error "Provider returned null or invalid response" ∧
    generateWithProvider emptyEnv
        (Function.update cexOracle "ollama" (.returned (some ⟨some "", none, none⟩)))
        "auto" =
      generateWithProvider emptyEnv
        (Function.update cexOracle "ollama"
          (.threw "Provider returned null or invalid response")) "auto" :=
  empty_text_is_failure emptyEnv cexOracle "auto" "ollama"
    ⟨some "", none, none⟩ rfl

/-! ## C4 -/

/-- Counterexample to C4: the probe's classification is NOT
case-insensitive.  On `"Got UNAUTHORIZED"` the code's case-sensitive
`includes` checks match nothing, classifying it `unknown`, while the
claimed case-insensitive matcher classifies it `Authentication`. -/
theorem classify_case_cex :
    classifyError "Got UNAUTHORIZED" = ErrorKind.unknown ∧
    classifySpec "Got UNAUTHORIZED" = ErrorKind.authentication ∧
    classifyError "Got UNAUTHORIZED" ≠ classifySpec "Got UNAUTHORIZED" := by
  decide

/-- C4 (amended): error classification is case-SENSITIVE substring
matching against the raw message, evaluated in the fixed priority order
Authentication (`401`/`Unauthorized`/`Invalid API`/`Authentication`/
`API key`/`not authorized`), then NotFound (`404`/`not found`), then
RateLimited (`429`/`rate limit`), then ConnectionFailure
(`timeout`/`ECONNREFUSED`), then Unknown, first match winning — i.e. it
coincides with first-match evaluation of the ordered pattern table; in
particular every message containing both `429` and `401` classifies as
Authentication. -/
theorem classify_priority (msg : String) :
    classifyError msg = firstMatchClassify msg ∧
    (jsIncludes msg "429" = true → jsIncludes msg "401" = true →
      classifyError msg = ErrorKind.authentication) := by
  constructor
  · unfold classifyError firstMatchClassify patternTable
    simp only [List.find?, List.any_cons, List.any_nil, Bool.or_false,
      Bool.or_assoc]
    rcases h1 : (jsIncludes msg "401" || (jsIncludes msg "Unauthorized" ||
      (jsIncludes msg "Invalid API" || (jsIncludes msg "Authentication" ||
      (jsIncludes msg "API key" || jsIncludes msg "not authorized"))))) with _ | _ <;>
    rcases h2 : (jsIncludes msg "404" || jsIncludes msg "not found") with _ | _ <;>
    rcases h3 : (jsIncludes msg "429" || jsIncludes msg "rate limit") with _ | _ <;>
    rcases h4 : (jsIncludes msg "timeout" || jsIncludes msg "ECONNREFUSED") with _ | _ <;>
    simp_all
  · intro _ h401
    simp [classifyError, h401]

/-- Witness for C4 (amended): the message `"429 after 401"` contains both
patterns and classifies as Authentication. -/
theorem classify_priority_witness :
    classifyError "429 after 401" = ErrorKind.authentication :=
  (classify_priority "429 after 401").2 (by decide) (by decide)

/-! ## C8 -/

/-- C8: every `ProviderStatus` the probe produces satisfies
`authenticated ⇒ available ⇒ configured`, except that a failure
classified as rate-limit yields `authenticated = true` with
`available = false` (and `configured = true`); no other outcome breaks
the chain. -/
theorem probe_invariant (world : ProbeWorld) (env : Env) (name : String) :
    ((testProviderAvailability world env name).1.available = true →
      (testProviderAvailability world env name).1.configured = true) ∧
    ((testProviderAvailability world env name).1.authenticated = true →
      (testProviderAvailability world env name).1.available = true ∨
        ((testProviderAvailability world env name).1.available = false ∧
         (testProviderAvailability world env name).1.configured = true ∧
         (testProviderAvailability world env name).1.error =
           some "Rate limit exceeded")) ∧
    (∀ msg, name ≠ "ollama" → isProviderConfigured env name = true →
      world.attempt name = .threw msg →
      classifyError msg = .rateLimited →
      (testProviderAvailability world env name).1.authenticated = true ∧
      (testProviderAvailability world env name).1.available = false ∧
      (testProviderAvailability world env name).1.configured = true) := by
  unfold testProviderAvailability
  by_cases hOll : name = "ollama"
  · rw [if_pos hOll]
    exact ⟨fun h => h, fun h => Or.inl h, fun msg hne => absurd hOll hne⟩
  · rw [if_neg hOll]
    by_cases hCfg : isProviderConfigured env name = false
    · rw [if_pos hCfg]
      simp [hCfg]
    · rw [if_neg hCfg]
      cases hA : world.attempt name with
      | returned r =>
        refine ⟨fun h => rfl, fun h => Or.inl rfl, ?_⟩
        intro msg _ _ hEq
        exact absurd hEq (by simp)
      | threw msg2 =>
        refine ⟨fun h => absurd h (by simp), ?_, ?_⟩
        · intro h
          refine Or.inr ⟨rfl, rfl, ?_⟩
          have hRL : classifyError msg2 = .rateLimited := by
            have := of_decide_eq_true h
            exact this
          show some (probeErrorMessage msg2) = some "Rate limit exceeded"
          unfold probeErrorMessage
          rw [hRL]
        · intro msg _ _ hEq hRL
          have hmm : msg2 = msg := by
            injection hEq
          subst hmm
          exact ⟨decide_eq_true hRL, rfl, rfl⟩

/-- Witness for C8: with `OPENAI_API_KEY` set and the attempt throwing
`"429"`, the rate-limit carve-out is concretely realized for `openai`. -/
theorem probe_invariant_witness :
    (testProviderAvailability ⟨false, fun _ => .threw "429"⟩
      (fun k => if k = "OPENAI_API_KEY" then some "sk" else none)
      "openai").1.authenticated = true ∧
    (testProviderAvailability ⟨false, fun _ => .threw "429"⟩
      (fun k => if k = "OPENAI_API_KEY" then some "sk" else none)
      "openai").1.available = false ∧
    (testProviderAvailability ⟨false, fun _ => .threw "429"⟩
      (fun k => if k = "OPENAI_API_KEY" then some "sk" else none)
      "openai").1.configured = true :=
  (probe_invariant ⟨false, fun _ => .threw "429"⟩
    (fun k => if k = "OPENAI_API_KEY" then some "sk" else none)
    "openai").2.2 "429" (by decide) (by decide) rfl (by decide)

/-! ## C9 -/

/-- C9: usage accounting for one `/api/generate` request.  On a
successful generation whose usage payload reports 57 total tokens,
`totalTokens` grows by exactly 57 and `requests` by exactly 1 (the
`logRequest` middleware fires once per logical request, not per
candidate attempt) while `errors` is unchanged; on a call in which the
sequencer exhausts all candidates, `errors` grows by exactly 1,
`requests` by 1, and `totalTokens` is unchanged. -/
theorem usage_accounting (env : Env) (oracle : String → AttemptOutcome)
    (st : UsageStats) (p : String) (r : GenResult) :
    ((generateWithProvider env oracle p).1 = .success r →
      r.usage = some 57 →
      handleGenerate env oracle st p true =
        { st with requests := st.requests + 1,
                  totalTokens := st.totalTokens + 57 }) ∧
    (∀ msg, (generateWithProvider env oracle p).1 = .failure msg →
      handleGenerate env oracle st p true =
        { st with requests := st.requests + 1,
                  errors := st.errors + 1 }) := by
  constructor
  · intro hs hu
    unfold handleGenerate
    simp only [Bool.not_true, Bool.false_eq_true, if_false, hs]
    rw [hu]
    unfold updateUsageStats
    simp
  · intro msg hf
    unfold handleGenerate
    simp only [Bool.not_true, Bool.false_eq_true, if_false, hf]

/-- Witness for C9: starting from zeroed counters, a one-candidate
`auto` run (only `ollama` configured) that succeeds with 57 tokens yields
`requests = 1, totalTokens = 57, errors = 0`; the same run with every
attempt throwing yields `requests = 1, errors = 1, totalTokens = 0`. -/
theorem usage_accounting_witness :
    handleGenerate emptyEnv (fun _ => .returned (some ⟨some "hi", none, some 57⟩))
        ⟨0, [], 0, 0⟩ "auto" true = ⟨1, [], 0, 57⟩ ∧
    handleGenerate emptyEnv (fun _ => .threw "boom")
        ⟨0, [], 0, 0⟩ "auto" true = ⟨1, [], 1, 0⟩ :=
  ⟨(usage_accounting emptyEnv (fun _ => .returned (some ⟨some "hi", none, some 57⟩))
      ⟨0, [], 0, 0⟩ "auto"
      (mkSuccess emptyEnv "ollama" ⟨some "hi", none, some 57⟩ 0)).1 rfl rfl,
   (usage_accounting emptyEnv (fun _ => .threw "boom")
      ⟨0, [], 0, 0⟩ "auto"
      (mkSuccess emptyEnv "ollama" ⟨some "hi", none, some 57⟩ 0)).2
     "Failed after 1 attempts. Last error: boom" rfl⟩

end NeuroLink
